import Mathlib

/-!
# fgrain_metal: the VapourSynth glue of the film grain filter

A shallow embedding of `fgrain_metal.cpp` (`filmGrainCreate`, `filmGrainGetFrame`) over an
explicit model of the VapourSynth host: argument maps, frames, a sample memory and the trace of
the API calls that have an effect.
-/

namespace FGrain

/-! ## C scalars -/

/-- Conversion of an integer to the C type int (32 bits, two's complement). -/
def wrapInt32 (x : Int) : Int := (x + 2 ^ 31) % 2 ^ 32 - 2 ^ 31

/-- Saturating conversion of an int64 to int, as mapGetIntSaturated does it. -/
def int64ToIntS (i : Int) : Int :=
  if i > 2 ^ 31 - 1 then 2 ^ 31 - 1 else if i < -(2 ^ 31) then -(2 ^ 31) else i

/-- An IEEE-754 binary32 value (C float) by its fields: sign bit, 8-bit biased exponent,
23-bit fraction. -/
structure F32 where
  sign : Bool
  exp : Nat
  frac : Nat
deriving DecidableEq, Repr

/-- An IEEE-754 binary64 value (C double) by its fields: sign bit, 11-bit biased exponent,
52-bit fraction. -/
structure F64 where
  sign : Bool
  exp : Nat
  frac : Nat
deriving DecidableEq, Repr

namespace F32

/-- Not-a-number test. -/
def isNaN (x : F32) : Bool := x.exp == 255 && x.frac != 0

/-- Both signed zeros. -/
def isZero (x : F32) : Bool := x.exp == 0 && x.frac == 0

/-- The C comparison x > 0.0f. -/
def gtZero (x : F32) : Bool := !x.isNaN && !x.isZero && !x.sign

/-- The C comparison x >= 0.0f. -/
def geZero (x : F32) : Bool := !x.isNaN && (x.isZero || !x.sign)

/-- The rational a finite value stands for (0 for infinities and NaN). -/
def toRat (x : F32) : Rat :=
  let a : Rat :=
    if x.exp = 255 then 0
    else if x.exp = 0 then (x.frac : Rat) * (2 : Rat) ^ (-149 : Int)
    else ((2 ^ 23 + x.frac : Nat) : Rat) * (2 : Rat) ^ ((x.exp : Int) - 150)
  if x.sign then -a else a

end F32

namespace F64

/-- Not-a-number test. -/
def isNaN (x : F64) : Bool := x.exp == 2047 && x.frac != 0

/-- Both signed zeros. -/
def isZero (x : F64) : Bool := x.exp == 0 && x.frac == 0

/-- The C comparison x > 0.0. -/
def gtZero (x : F64) : Bool := !x.isNaN && !x.isZero && !x.sign

/-- The C comparison x >= 0.0. -/
def geZero (x : F64) : Bool := !x.isNaN && (x.isZero || !x.sign)

/-- The rational a finite value stands for (0 for infinities and NaN). -/
def toRat (x : F64) : Rat :=
  let a : Rat :=
    if x.exp = 2047 then 0
    else if x.exp = 0 then (x.frac : Rat) * (2 : Rat) ^ (-1074 : Int)
    else ((2 ^ 52 + x.frac : Nat) : Rat) * (2 : Rat) ^ ((x.exp : Int) - 1075)
  if x.sign then -a else a

/-- The implicit conversion double to float of an assignment to a float field: round to nearest,
ties to even; overflow gives an infinity, NaN stays NaN (quieted, payload truncated). A finite
nonzero double is m * 2^e with m = 2^52 + frac (53 bits); u is the exponent of the last place
of the float result, q the rounded significand in units of 2^u. -/
def toF32 (x : F64) : F32 :=
  if x.exp = 2047 then
    if x.frac = 0 then ⟨x.sign, 255, 0⟩ else ⟨x.sign, 255, 2 ^ 22 + x.frac / 2 ^ 29 % 2 ^ 22⟩
  else if x.exp = 0 then ⟨x.sign, 0, 0⟩
  else
    let m : Nat := 2 ^ 52 + x.frac
    let e : Int := (x.exp : Int) - 1075
    let u : Int := max (e + 29) (-149)
    let sh : Nat := (u - e).toNat
    let q0 : Nat := m / 2 ^ sh
    let r : Nat := m % 2 ^ sh
    let half : Nat := 2 ^ (sh - 1)
    let q : Nat := if r > half ∨ (r = half ∧ q0 % 2 = 1) then q0 + 1 else q0
    if q < 2 ^ 23 then ⟨x.sign, 0, q⟩
    else
      let eb : Int := if q = 2 ^ 24 then u + 151 else u + 150
      if eb ≥ 255 then ⟨x.sign, 255, 0⟩
      else ⟨x.sign, eb.toNat, if q = 2 ^ 24 then 0 else q - 2 ^ 23⟩

end F64

/-- The literal 0.1f. -/
def f32_0_1 : F32 := ⟨false, 123, 0x4CCCCD⟩
/-- The literal 0.0f. -/
def f32_0_0 : F32 := ⟨false, 0, 0⟩
/-- The literal 0.8f. -/
def f32_0_8 : F32 := ⟨false, 126, 0x4CCCCD⟩
/-- The double 0.1, as a caller writing 0.1 supplies it. -/
def f64_0_1 : F64 := ⟨false, 1019, 0x999999999999A⟩
/-- The double 0.0. -/
def f64_0_0 : F64 := ⟨false, 0, 0⟩
/-- The double 0.8. -/
def f64_0_8 : F64 := ⟨false, 1022, 0x999999999999A⟩

/-- The double -1.0. -/
def f64_neg_1 : F64 := ⟨true, 1023, 0⟩
/-- The float -1.0f. -/
def f32_neg_1 : F32 := ⟨true, 127, 0⟩

/-! ## VapourSynth4.h: constants and data -/

def arInitial : Int := 0
def arAllFramesReady : Int := 1
def arError : Int := -1
def stInteger : Int := 0
def stFloat : Int := 1
def cfUndefined : Int := 0
def cfGray : Int := 1
def rpStrictSpatial : Int := 2
def fmParallel : Int := 0

/-- The fields of VSVideoFormat. -/
structure VSVideoFormat where
  colorFamily : Int
  sampleType : Int
  bitsPerSample : Int
  bytesPerSample : Int
  subSamplingW : Int
  subSamplingH : Int
  numPlanes : Int
deriving DecidableEq, Repr

/-- The fields of VSVideoInfo. -/
structure VSVideoInfo where
  format : VSVideoFormat
  fpsNum : Int
  fpsDen : Int
  width : Int
  height : Int
  numFrames : Int
deriving DecidableEq, Repr

/-- A node handle; getVideoInfo reads its video info. -/
structure VSNode where
  id : Nat
  vi : VSVideoInfo
deriving DecidableEq, Repr

/-- VSHelper4.h, isConstantVideoFormat: positive dimensions and a defined colour family. -/
def isConstantVideoFormat (vi : VSVideoInfo) : Bool :=
  decide (vi.height > 0) && decide (vi.width > 0) && decide (vi.format.colorFamily ≠ cfUndefined)

/-- The values a VSMap key can hold (the types this filter reads). -/
inductive VSMapValue where
  | ints (v : List Int)
  | floats (v : List F64)
  | nodes (v : List VSNode)
deriving DecidableEq, Repr

/-- A VSMap: keys with their value arrays. -/
abbrev VSMap := List (String × VSMapValue)

/-- Host API mapGetNode: element index of key, none on any error (unset key, wrong type,
index out of range). -/
def mapGetNode (m : VSMap) (key : String) (index : Nat) : Option VSNode :=
  match m.lookup key with
  | some (.nodes v) => v.get? index
  | _ => none

/-- Host API mapGetInt (int64), none on any error. -/
def mapGetInt (m : VSMap) (key : String) (index : Nat) : Option Int :=
  match m.lookup key with
  | some (.ints v) => v.get? index
  | _ => none

/-- Host API mapGetIntSaturated: mapGetInt with the value saturated to int. -/
def mapGetIntSaturated (m : VSMap) (key : String) (index : Nat) : Option Int :=
  (mapGetInt m key index).map int64ToIntS

/-- Host API mapGetFloat (double), none on any error. -/
def mapGetFloat (m : VSMap) (key : String) (index : Nat) : Option F64 :=
  match m.lookup key with
  | some (.floats v) => v.get? index
  | _ => none

/-- The struct FilmGrainData. -/
structure FilmGrainData where
  node : VSNode
  vi : VSVideoInfo
  numIterations : Int
  grainRadiusMean : F32
  grainRadiusStd : F32
  sigma : F32
  seed : Int
deriving DecidableEq, Repr

/-- One VSFilterDependency. -/
structure VSFilterDependency where
  source : VSNode
  requestPattern : Int
deriving DecidableEq, Repr

/-- The API calls of filmGrainCreate that act on the host. -/
inductive CreateEvent where
  | mapSetError (msg : String)
  | freeNode (node : VSNode)
  | createVideoFilter (name : String) (vi : VSVideoInfo) (filterMode : Int)
      (deps : List VSFilterDependency) (numDeps : Int) (data : FilmGrainData)
deriving DecidableEq, Repr

/-- The function filmGrainCreate: the calls it makes on the host, in order. The result is none
when mapGetNode fails: its error pointer is null, so the host stops with a fatal error. -/
def filmGrainCreate (inMap : VSMap) : Option (List CreateEvent) :=
  match mapGetNode inMap "clip" 0 with
  | none => none
  | some node =>
    let vi := node.vi
    let fi := vi.format
    if !isConstantVideoFormat vi || !(fi.sampleType == stFloat && fi.bitsPerSample == 32) then
      some [.mapSetError "FilmGrain: only 32-bit float input supported", .freeNode node]
    else
      let numIterations := (mapGetIntSaturated inMap "numIterations" 0).getD 800
      let grainRadiusMean := ((mapGetFloat inMap "grainRadiusMean" 0).map F64.toF32).getD f32_0_1
      let grainRadiusStd := ((mapGetFloat inMap "grainRadiusStd" 0).map F64.toF32).getD f32_0_0
      let sigma := ((mapGetFloat inMap "sigma" 0).map F64.toF32).getD f32_0_8
      let seed := (mapGetIntSaturated inMap "seed" 0).getD 114514
      let data : FilmGrainData :=
        ⟨node, vi, numIterations, grainRadiusMean, grainRadiusStd, sigma, seed⟩
      some [.createVideoFilter "FilmGrain" vi fmParallel [⟨node, rpStrictSpatial⟩] 1 data]

/-- The instance data of the filter a run of filmGrainCreate created, if it created one. -/
def createdInstance : List CreateEvent → Option FilmGrainData
  | [] => none
  | .createVideoFilter _ _ _ _ _ data :: _ => some data
  | _ :: rest => createdInstance rest

/-- Number of createVideoFilter calls in a run. -/
def countCreate (t : List CreateEvent) : Nat :=
  (t.filter fun e => match e with | .createVideoFilter .. => true | _ => false).length

/-- Number of mapSetError calls in a run. -/
def countSetError (t : List CreateEvent) : Nat :=
  (t.filter fun e => match e with | .mapSetError _ => true | _ => false).length

/-- Number of freeNode calls on the given node in a run. -/
def countFreeNode (node : VSNode) (t : List CreateEvent) : Nat :=
  (t.filter fun e => match e with | .freeNode x => x == node | _ => false).length

/-! ## Frames, sample memory and the synthesis bridge -/

/-- One plane of a frame in host memory: base address and row stride, both in bytes. -/
structure VSPlane where
  ptr : Nat
  stride : Int
deriving DecidableEq, Repr

/-- A frame handle with what the host records for it: format, dimensions of plane 0 and the
buffers of its planes. -/
structure VSFrame where
  id : Nat
  format : VSVideoFormat
  width : Int
  height : Int
  planes : List VSPlane
deriving DecidableEq, Repr

/-- Host API getVideoFrameFormat. -/
def getVideoFrameFormat (f : VSFrame) : VSVideoFormat := f.format

/-- Host API getFrameWidth: the frame width, shifted by the chroma subsampling on planes
other than 0. -/
def getFrameWidth (f : VSFrame) (plane : Nat) : Int :=
  f.width >>> (if plane = 0 then 0 else f.format.subSamplingW.toNat)

/-- Host API getFrameHeight: the frame height, shifted by the chroma subsampling on planes
other than 0. -/
def getFrameHeight (f : VSFrame) (plane : Nat) : Int :=
  f.height >>> (if plane = 0 then 0 else f.format.subSamplingH.toNat)

/-- Host API getReadPtr. -/
def getReadPtr (f : VSFrame) (plane : Nat) : Nat := (f.planes.getD plane ⟨0, 0⟩).ptr

/-- Host API getWritePtr. -/
def getWritePtr (f : VSFrame) (plane : Nat) : Nat := (f.planes.getD plane ⟨0, 0⟩).ptr

/-- Host API getStride (a ptrdiff_t, in bytes). -/
def getStride (f : VSFrame) (plane : Nat) : Int := (f.planes.getD plane ⟨0, 0⟩).stride

/-- What the host answers during one call of filmGrainGetFrame: the upstream frame of each
index and node, and the handle and buffers its allocator gives the next new frame. -/
structure Host where
  getFrameFilter : Int → VSNode → VSFrame
  newFrameId : Nat
  newFramePlanes : VSVideoFormat → Int → Int → List VSPlane

/-- Host API newVideoFrame: a fresh frame of the given format and dimensions; its sample
memory is left as the allocator found it. -/
def newVideoFrame (host : Host) (fi : VSVideoFormat) (width height : Int) : VSFrame :=
  ⟨host.newFrameId, fi, width, height, host.newFramePlanes fi width height⟩

/-- Sample memory: the float stored at each byte address. -/
abbrev Mem := Nat → F32

/-- The sample of pixel (x, y) of a plane of a frame, addressed through the row stride of
that plane. -/
def framePixel (mem : Mem) (f : VSFrame) (plane x y : Nat) : F32 :=
  mem ((getReadPtr f plane : Int) + (y : Int) * getStride f plane + 4 * (x : Int)).toNat

/-- The synthesis kernel behind the bridge, as a function of its arguments: the samples of the
input buffer (by sample index), width, height, stride, numIterations, grainRadiusMean,
grainRadiusStd, sigma, seed, and the pixel (x, y) whose result it gives. -/
abbrev Kernel :=
  (Nat → F32) → Int → Int → Int → Int → F32 → F32 → F32 → Int → Nat → Nat → F32

/-- The arguments of one call of runMetalComputationBridge. -/
structure BridgeCall where
  inputData : Nat
  outputData : Nat
  width : Int
  height : Int
  stride : Int
  numIterations : Int
  grainRadiusMean : F32
  grainRadiusStd : F32
  sigma : F32
  seed : Int
deriving DecidableEq, Repr

/-- Modelled from the spec: runMetalComputationBridge is implemented in the Swift and Metal
sources, which are not under src/. Section 4.2: the kernel reads the input plane (stride
samples per row) and writes the result of pixel (x, y) at sample y * width + x of the output
buffer, tightly packed at width samples per row. -/
def runMetalComputationBridge (K : Kernel) (mem : Mem) (inputData outputData : Nat)
    (width height stride numIterations : Int) (grainRadiusMean grainRadiusStd sigma : F32)
    (seed : Int) : Mem :=
  fun a =>
    let i : Nat := (a - outputData) / 4
    if outputData ≤ a ∧ (a - outputData) % 4 = 0 ∧ 0 < width ∧ (i : Int) < width * height then
      K (fun j => if (j : Int) < stride * height then mem (inputData + 4 * j) else f32_0_0)
        width height stride numIterations grainRadiusMean grainRadiusStd sigma seed
        (i % width.toNat) (i / width.toNat)
    else mem a

/-- The expression srcStride / sizeof(float) as the bridge receives it: the int is converted
to size_t (64 bits, unsigned), divided by 4, and converted to the int parameter. -/
def strideArg (srcStride : Int) : Int := wrapInt32 (srcStride % 2 ^ 64 / 4)

/-- The calls of filmGrainGetFrame that act on the host or on memory. -/
inductive Event where
  | requestFrameFilter (n : Int) (node : VSNode)
  | getFrameFilter (n : Int) (node : VSNode)
  | newVideoFrame (fi : VSVideoFormat) (width height : Int) (propSrc : Nat)
  | bridge (call : BridgeCall)
  | freeFrame (frame : Nat)
deriving DecidableEq, Repr

/-- What a call of filmGrainGetFrame leaves: the returned frame (none for NULL), the instance
data, the memory and the calls made, in order. -/
structure GetFrameResult where
  ret : Option VSFrame
  inst : FilmGrainData
  mem : Mem
  trace : List Event

/-- The plane loop of filmGrainGetFrame and the code after it: count iterations remain,
starting at plane. -/
def planeLoop (K : Kernel) (d : FilmGrainData) (fi : VSVideoFormat) (src dst : VSFrame) :
    Nat → Nat → Mem → Option VSFrame × Mem × List Event
  | 0, _, mem => (some dst, mem, [.freeFrame src.id])
  | count + 1, plane, mem =>
    let srcp := getReadPtr src plane
    let srcStride := wrapInt32 (getStride src plane)
    let dstp := getWritePtr dst plane
    let _dstStride := wrapInt32 (getStride dst plane)
    let h := getFrameHeight src plane
    let w := getFrameWidth src plane
    if fi.sampleType = stFloat ∧ fi.bitsPerSample = 32 then
      let mem1 := runMetalComputationBridge K mem srcp dstp w h (strideArg srcStride)
        d.numIterations d.grainRadiusMean d.grainRadiusStd d.sigma d.seed
      let rest := planeLoop K d fi src dst count (plane + 1) mem1
      (rest.1, rest.2.1,
        .bridge ⟨srcp, dstp, w, h, strideArg srcStride, d.numIterations, d.grainRadiusMean,
          d.grainRadiusStd, d.sigma, d.seed⟩ :: rest.2.2)
    else
      (none, mem, [.freeFrame src.id, .freeFrame dst.id])

/-- The function filmGrainGetFrame. -/
def filmGrainGetFrame (K : Kernel) (host : Host) (n : Int) (activationReason : Int)
    (d : FilmGrainData) (mem : Mem) : GetFrameResult :=
  if activationReason = arInitial then
    ⟨none, d, mem, [.requestFrameFilter n d.node]⟩
  else if activationReason = arAllFramesReady then
    let src := host.getFrameFilter n d.node
    let fi := getVideoFrameFormat src
    let height := getFrameHeight src 0
    let width := getFrameWidth src 0
    let dst := newVideoFrame host fi width height
    let r := planeLoop K d fi src dst fi.numPlanes.toNat 0 mem
    ⟨r.1, d, r.2.1, .getFrameFilter n d.node :: .newVideoFrame fi width height src.id :: r.2.2⟩
  else
    ⟨none, d, mem, []⟩

/-- The bridge calls of a trace, in order. -/
def bridgeCalls : List Event → List BridgeCall
  | [] => []
  | .bridge c :: rest => c :: bridgeCalls rest
  | _ :: rest => bridgeCalls rest

/-- Number of freeFrame calls on the given frame handle in a trace. -/
def countFree (frame : Nat) (t : List Event) : Nat := t.count (.freeFrame frame)

/-- The bridge call the source makes for plane p of src and dst. -/
def planeCall (d : FilmGrainData) (src dst : VSFrame) (p : Nat) : BridgeCall :=
  ⟨getReadPtr src p, getWritePtr dst p, getFrameWidth src p, getFrameHeight src p,
    strideArg (wrapInt32 (getStride src p)), d.numIterations, d.grainRadiusMean,
    d.grainRadiusStd, d.sigma, d.seed⟩

/-! ## Concrete inputs -/

/-- The format GRAYS: one plane of 32-bit float samples. -/
def grayS : VSVideoFormat := ⟨cfGray, stFloat, 32, 4, 0, 0, 1⟩

/-- The format GRAY16: one plane of 16-bit integer samples. -/
def gray16 : VSVideoFormat := ⟨cfGray, stInteger, 16, 2, 0, 0, 1⟩

/-- A 64x64 GRAYS clip. -/
def clip64 : VSNode := ⟨1, ⟨grayS, 24, 1, 64, 64, 100⟩⟩

/-- The instance data with every option at its default. -/
def defaultData (node : VSNode) : FilmGrainData :=
  ⟨node, node.vi, 800, f32_0_1, f32_0_0, f32_0_8, 114514⟩

/-- A host whose upstream frames are 64x64 GRAYS with a 256-byte stride. -/
def host64 : Host :=
  ⟨fun _ _ => ⟨7, grayS, 64, 64, [⟨4096, 256⟩]⟩, 8, fun _ _ _ => [⟨65536, 256⟩]⟩

/-- The grain parameters are valid: positive iteration count and radius mean, non-negative
radius deviation and sigma. -/
def validParams (d : FilmGrainData) : Prop :=
  1 ≤ d.numIterations ∧ d.grainRadiusMean.gtZero = true ∧ d.grainRadiusStd.geZero = true ∧
    d.sigma.geZero = true

instance (d : FilmGrainData) : Decidable (validParams d) := by
  unfold validParams; infer_instance

/-- None of the five grain options can be read from the map. -/
def noOptions (m : VSMap) : Prop :=
  mapGetInt m "numIterations" 0 = none ∧ mapGetFloat m "grainRadiusMean" 0 = none ∧
    mapGetFloat m "grainRadiusStd" 0 = none ∧ mapGetFloat m "sigma" 0 = none ∧
    mapGetInt m "seed" 0 = none

instance (m : VSMap) : Decidable (noOptions m) := by
  unfold noOptions; infer_instance

/-- The five grain options are supplied as 800, 0.1, 0.0, 0.8, 114514. -/
def explicitDefaults (m : VSMap) : Prop :=
  mapGetInt m "numIterations" 0 = some 800 ∧ mapGetFloat m "grainRadiusMean" 0 = some f64_0_1 ∧
    mapGetFloat m "grainRadiusStd" 0 = some f64_0_0 ∧ mapGetFloat m "sigma" 0 = some f64_0_8 ∧
    mapGetInt m "seed" 0 = some 114514

instance (m : VSMap) : Decidable (explicitDefaults m) := by
  unfold explicitDefaults; infer_instance

/-- The clip is rejected by the format check of filmGrainCreate. -/
def rejected (vi : VSVideoInfo) : Prop :=
  isConstantVideoFormat vi = false ∨ ¬(vi.format.sampleType = stFloat ∧ vi.format.bitsPerSample = 32)

instance (vi : VSVideoInfo) : Decidable (rejected vi) := by
  unfold rejected; infer_instance

/-- An argument map with only a clip. -/
def argsNone (node : VSNode) : VSMap := [("clip", .nodes [node])]

/-- An argument map with the clip and every option written out at its default. -/
def argsExplicit (node : VSNode) : VSMap :=
  [("clip", .nodes [node]), ("numIterations", .ints [800]), ("grainRadiusMean", .floats [f64_0_1]),
    ("grainRadiusStd", .floats [f64_0_0]), ("sigma", .floats [f64_0_8]), ("seed", .ints [114514])]

/-- A 64x64 clip of 16-bit integer samples. -/
def clipInt16 : VSNode := ⟨2, ⟨gray16, 24, 1, 64, 64, 100⟩⟩

/-- An argument map a caller can supply: a float clip with a zero iteration count and negative
radius mean, radius deviation and sigma. -/
def argsInvalid : VSMap :=
  [("clip", .nodes [clip64]), ("numIterations", .ints [0]), ("grainRadiusMean", .floats [f64_neg_1]),
    ("grainRadiusStd", .floats [f64_neg_1]), ("sigma", .floats [f64_neg_1])]

/-- The double 2^-200. -/
def f64_tiny : F64 := ⟨false, 823, 0⟩

/-- An argument map a caller can supply: a float clip, numIterations = 2^31 (one above the
largest int) and grainRadiusMean = 2^-200 (a double above 0 and below every float above 0). -/
def argsOutOfRange : VSMap :=
  [("clip", .nodes [clip64]), ("numIterations", .ints [2 ^ 31]),
    ("grainRadiusMean", .floats [f64_tiny])]

/-- The frame newVideoFrame gives for a source frame: the source format, the dimensions of
source plane 0. -/
def dstFrame (host : Host) (src : VSFrame) : VSFrame :=
  newVideoFrame host src.format (getFrameWidth src 0) (getFrameHeight src 0)

/-- The result the kernel gives for pixel (x, y) in one bridge call, from the memory the call
starts with. -/
def kernelResult (K : Kernel) (mem : Mem) (c : BridgeCall) (x y : Nat) : F32 :=
  K (fun j => if (j : Int) < c.stride * c.height then mem (c.inputData + 4 * j) else f32_0_0)
    c.width c.height c.stride c.numIterations c.grainRadiusMean c.grainRadiusStd c.sigma c.seed
    x y

/-- Address a is one of the output samples a bridge call writes. -/
def inWrite (c : BridgeCall) (a : Nat) : Prop :=
  c.outputData ≤ a ∧ (a - c.outputData) % 4 = 0 ∧ 0 < c.width ∧
    (((a - c.outputData) / 4 : Nat) : Int) < c.width * c.height

instance (c : BridgeCall) (a : Nat) : Decidable (inWrite c a) :=
  inferInstanceAs (Decidable (c.outputData ≤ a ∧ (a - c.outputData) % 4 = 0 ∧ 0 < c.width ∧
    (((a - c.outputData) / 4 : Nat) : Int) < c.width * c.height))

/-- Address a is one of the input samples a bridge call shows the kernel. -/
def inRead (c : BridgeCall) (a : Nat) : Prop :=
  ∃ j : Nat, (j : Int) < c.stride * c.height ∧ a = c.inputData + 4 * j

/-- A kernel that copies the input pixel: a fixed function of its arguments. -/
def copyKernel : Kernel :=
  fun input _ _ stride _ _ _ _ _ x y => input ((y : Int) * stride + (x : Int)).toNat

/-- A 3x2 GRAYS clip. -/
def clip3x2 : VSNode := ⟨3, ⟨grayS, 24, 1, 3, 2, 100⟩⟩

/-- A host with 3x2 GRAYS frames whose rows are padded to 32 bytes (8 samples): frame 0 lies
at address 4096, every other frame at 4160; the allocator gives the new frame the buffer at
address 8192, also with 32-byte rows. -/
def hostPad : Host :=
  ⟨fun n _ => if n = 0 then ⟨7, grayS, 3, 2, [⟨4096, 32⟩]⟩ else ⟨6, grayS, 3, 2, [⟨4160, 32⟩]⟩,
    8, fun _ _ _ => [⟨8192, 32⟩]⟩

/-- The same host once the source frame at address 4160 has been freed: its allocator recycles
that buffer for the new frame. -/
def hostPadRecycled : Host :=
  ⟨hostPad.getFrameFilter, 9, fun _ _ _ => [⟨4160, 32⟩]⟩

/-- A memory: frame 0 holds 0.1 everywhere except 0.8 at pixel (0, 1); the other source frame
holds -1.0; every other address holds 0.0. -/
def memPad : Mem := fun a =>
  if a = 4096 + 32 then f32_0_8
  else if 4096 ≤ a ∧ a < 4160 then f32_0_1
  else if 4160 ≤ a ∧ a < 4224 then f32_neg_1
  else f32_0_0

/-- The memory after an all-frames-ready request for index 1 on hostPad. -/
def memPadAfter : Mem :=
  (filmGrainGetFrame copyKernel hostPad 1 arAllFramesReady (defaultData clip3x2) memPad).mem

/-! # Theorems -/

/-! ## Checks of the float conversion -/

theorem toF32_literals :
    F64.toF32 f64_0_1 = f32_0_1 ∧ F64.toF32 f64_0_0 = f32_0_0 ∧ F64.toF32 f64_0_8 = f32_0_8 ∧
      F64.toF32 f64_neg_1 = f32_neg_1 := by
  decide

/-- The float 0.1f is the binary32 value nearest to 1/10, and the double 0.1 the binary64 value
nearest to 1/10: both are within half a unit in the last place. -/
theorem literal_0_1_nearest :
    |f32_0_1.toRat - 1 / 10| < 1 / 2 ^ 28 ∧ |f64_0_1.toRat - 1 / 10| < 1 / 2 ^ 57 := by
  constructor
  · rw [abs_lt]
    norm_num [F32.toRat, f32_0_1]
  · rw [abs_lt]
    norm_num [F64.toRat, f64_0_1]

/-- The float 0.8f is the binary32 value nearest to 4/5, and the double 0.8 the binary64 value
nearest to 4/5. -/
theorem literal_0_8_nearest :
    |f32_0_8.toRat - 4 / 5| < 1 / 2 ^ 25 ∧ |f64_0_8.toRat - 4 / 5| < 1 / 2 ^ 54 := by
  constructor
  · rw [abs_lt]
    norm_num [F32.toRat, f32_0_8]
  · rw [abs_lt]
    norm_num [F64.toRat, f64_0_8]

/-- Conversion cases: 1.0 is exact; 2^-149 is the smallest float; 2^-150 is a tie and goes to
the even neighbour 0; just above the tie goes up; the largest double below 2^128 overflows to
infinity; the largest float is exact; infinity and NaN are kept. -/
theorem toF32_cases :
    F64.toF32 ⟨false, 1023, 0⟩ = ⟨false, 127, 0⟩ ∧
      F64.toF32 ⟨false, 1023 - 149, 0⟩ = ⟨false, 0, 1⟩ ∧
      F64.toF32 ⟨false, 1023 - 150, 0⟩ = ⟨false, 0, 0⟩ ∧
      F64.toF32 ⟨false, 1023 - 150, 1⟩ = ⟨false, 0, 1⟩ ∧
      F64.toF32 ⟨false, 1023 + 127, 2 ^ 52 - 1⟩ = ⟨false, 255, 0⟩ ∧
      F64.toF32 ⟨false, 1023 + 127, 2 ^ 52 - 2 ^ 29⟩ = ⟨false, 254, 2 ^ 23 - 1⟩ ∧
      F64.toF32 ⟨true, 2047, 0⟩ = ⟨true, 255, 0⟩ ∧
      F32.isNaN (F64.toF32 ⟨false, 2047, 1⟩) = true := by
  decide

/-- A positive double can convert to the float 0: 2^-200 is above 0, its float is not. -/
theorem toF32_underflow :
    F64.gtZero ⟨false, 823, 0⟩ = true ∧ F32.gtZero (F64.toF32 ⟨false, 823, 0⟩) = false := by
  decide

/-! ## filmGrainCreate -/

theorem filmGrainCreate_of_rejected (inMap : VSMap) (node : VSNode)
    (hclip : mapGetNode inMap "clip" 0 = some node) (hrej : rejected node.vi) :
    filmGrainCreate inMap =
      some [.mapSetError "FilmGrain: only 32-bit float input supported", .freeNode node] := by
  unfold rejected at hrej
  unfold filmGrainCreate
  rw [hclip]
  rcases hrej with h | h
  · simp [h]
  · have : (node.vi.format.sampleType == stFloat && node.vi.format.bitsPerSample == 32) = false := by
      simpa using h
    simp [this]

theorem filmGrainCreate_of_accepted (inMap : VSMap) (node : VSNode)
    (hclip : mapGetNode inMap "clip" 0 = some node) (hacc : ¬ rejected node.vi) :
    filmGrainCreate inMap =
      some [.createVideoFilter "FilmGrain" node.vi fmParallel [⟨node, rpStrictSpatial⟩] 1
        ⟨node, node.vi, (mapGetIntSaturated inMap "numIterations" 0).getD 800,
          ((mapGetFloat inMap "grainRadiusMean" 0).map F64.toF32).getD f32_0_1,
          ((mapGetFloat inMap "grainRadiusStd" 0).map F64.toF32).getD f32_0_0,
          ((mapGetFloat inMap "sigma" 0).map F64.toF32).getD f32_0_8,
          (mapGetIntSaturated inMap "seed" 0).getD 114514⟩] := by
  unfold rejected at hacc
  simp only [not_or, not_not, Bool.not_eq_false] at hacc
  obtain ⟨hc, hs, hb⟩ := hacc
  unfold filmGrainCreate
  rw [hclip]
  simp [hc, hs, hb]

theorem int64ToIntS_of_inRange (v : Int) (h1 : -(2 ^ 31) ≤ v) (h2 : v < 2 ^ 31) :
    int64ToIntS v = v := by
  unfold int64ToIntS
  split_ifs <;> omega

theorem one_le_int64ToIntS (v : Int) (h : 1 ≤ v) : 1 ≤ int64ToIntS v := by
  unfold int64ToIntS
  split_ifs <;> omega

theorem F32.geZero_of_sign (x : F32) (hs : x.sign = false) (hn : x.exp = 255 → x.frac = 0) :
    x.geZero = true := by
  obtain ⟨s, e, f⟩ := x
  simp only at hs hn
  subst hs
  simp only [F32.geZero, F32.isNaN, F32.isZero, Bool.not_false, Bool.or_true, Bool.and_true,
    Bool.not_eq_true', Bool.and_eq_false_imp, beq_iff_eq]
  intro h
  simp [hn h]

/-- A double that is at least 0 converts to a float that is at least 0. -/
theorem F64.geZero_toF32 (v : F64) (h : v.geZero = true) : (F64.toF32 v).geZero = true := by
  obtain ⟨s, e, f⟩ := v
  simp only [F64.geZero, F64.isNaN, F64.isZero] at h
  unfold F64.toF32
  simp only
  by_cases he : e = 2047
  · subst he
    by_cases hf : f = 0
    · subst hf
      simp at h
      simp [F32.geZero, F32.isNaN, F32.isZero, h]
    · simp [hf] at h
  · simp only [he, if_false]
    by_cases h0 : e = 0
    · simp [h0, F32.geZero, F32.isNaN, F32.isZero]
    · have hs : s = false := by simpa [he, h0] using h
      subst hs
      simp only [h0, if_false]
      generalize max ((e : Int) - 1075 + 29) (-149) = u
      split_ifs <;> refine F32.geZero_of_sign _ rfl (fun h3 => ?_) <;> simp only [] at h3 ⊢ <;>
        omega

/-- A double that is a normal float value keeps its value in the conversion. -/
theorem F64.toF32_exact (s : Bool) (e f : Nat) (he1 : 897 ≤ e) (he2 : e ≤ 1150)
    (hf : f < 2 ^ 52) (hfr : f % 2 ^ 29 = 0) :
    (F64.toF32 ⟨s, e, f⟩).toRat = (F64.mk s e f).toRat := by
  obtain ⟨g, rfl⟩ : ∃ g, f = 2 ^ 29 * g := ⟨f / 2 ^ 29, by omega⟩
  have hg : g < 2 ^ 23 := by omega
  have hu : max ((e : Int) - 1075 + 29) (-149) = (e : Int) - 1046 := by
    rw [max_eq_left] <;> omega
  have hsh : ((e : Int) - 1046 - ((e : Int) - 1075)).toNat = 29 := by
    have : (e : Int) - 1046 - ((e : Int) - 1075) = 29 := by ring
    rw [this]; rfl
  have hq0 : (2 ^ 52 + 2 ^ 29 * g) / 2 ^ 29 = 2 ^ 23 + g := by omega
  have hr : (2 ^ 52 + 2 ^ 29 * g) % 2 ^ 29 = 0 := by omega
  have e1 : e ≠ 2047 := by omega
  have e2 : e ≠ 0 := by omega
  have h1 : ¬ (2 ^ 23 + g < 2 ^ 23) := by omega
  have h2 : ¬ (2 ^ 23 + g = 2 ^ 24) := by omega
  have h3 : ¬ ((e : Int) - 1046 + 150 ≥ 255) := by omega
  have h4 : ((e : Int) - 1046 + 150).toNat = e - 896 := by omega
  have h5 : e - 896 ≠ 255 := by omega
  have h6 : e - 896 ≠ 0 := by omega
  have hres : F64.toF32 ⟨s, e, 2 ^ 29 * g⟩ = ⟨s, e - 896, g⟩ := by
    unfold F64.toF32
    simp only [e1, e2, if_false, hu, hsh, hq0, hr]
    have hround : ¬ (0 > 2 ^ (29 - 1) ∨ 0 = 2 ^ (29 - 1) ∧ (2 ^ 23 + g) % 2 = 1) := by
      norm_num
    rw [if_neg hround, if_neg h1, if_neg h2, if_neg h3, if_neg h2, h4, Nat.add_sub_cancel_left]
  rw [hres]
  simp only [F32.toRat, F64.toRat, h5, h6, e1, e2, if_false]
  have key : ((2 ^ 23 + g : Nat) : Rat) * (2 : Rat) ^ (((e - 896 : Nat) : Int) - 150) =
      ((2 ^ 52 + 2 ^ 29 * g : Nat) : Rat) * (2 : Rat) ^ ((e : Int) - 1075) := by
    have hE : (((e - 896 : Nat) : Int) - 150) = ((e : Int) - 1075) + 29 := by omega
    rw [hE, zpow_add₀ (by norm_num : (2 : Rat) ≠ 0)]
    push_cast
    ring
  rw [key]


theorem F32.gtZero_of_sign (x : F32) (hs : x.sign = false) (hn : x.exp = 255 → x.frac = 0)
    (hz : x.exp = 0 → x.frac ≠ 0) : x.gtZero = true := by
  obtain ⟨s, e, f⟩ := x
  simp only at hs hn hz
  subst hs
  by_cases h1 : e = 255
  · have := hn h1
    subst h1 this
    decide
  · by_cases h2 : e = 0
    · have := hz h2
      subst h2
      simp [F32.gtZero, F32.isNaN, F32.isZero, this]
    · simp [F32.gtZero, F32.isNaN, F32.isZero, h1, h2]

/-- A double above 0 that is at least 2^-149 (biased exponent 874 or more) converts to a float
above 0. -/
theorem F64.gtZero_toF32 (v : F64) (h : v.gtZero = true) (he : 874 ≤ v.exp) :
    (F64.toF32 v).gtZero = true := by
  obtain ⟨s, e, f⟩ := v
  simp only at he
  have e0 : e ≠ 0 := by omega
  have hs : s = false := by
    cases s
    · rfl
    · simp [F64.gtZero] at h
  subst hs
  unfold F64.toF32
  simp only
  by_cases he2 : e = 2047
  · subst he2
    by_cases hf : f = 0
    · subst hf
      decide
    · simp [F64.gtZero, F64.isNaN, hf] at h
  · simp only [he2, e0, if_false]
    obtain ⟨sh, hsh, hsh52⟩ : ∃ sh : Nat,
        (max ((e : Int) - 1075 + 29) (-149) - ((e : Int) - 1075)).toNat = sh ∧ sh ≤ 52 :=
      ⟨_, rfl, by omega⟩
    rw [hsh]
    have hq0 : 1 ≤ (2 ^ 52 + f) / 2 ^ sh := by
      rw [Nat.one_le_div_iff (by positivity)]
      calc 2 ^ sh ≤ 2 ^ 52 := Nat.pow_le_pow_right (by decide) hsh52
        _ ≤ 2 ^ 52 + f := Nat.le_add_right _ _
    have hu : (-149 : Int) ≤ max ((e : Int) - 1075 + 29) (-149) := le_max_right _ _
    generalize max ((e : Int) - 1075 + 29) (-149) = u at hu
    generalize (2 ^ 52 + f) / 2 ^ sh = q0 at hq0
    split_ifs <;> refine F32.gtZero_of_sign _ rfl (fun h3 => ?_) (fun h4 => ?_) <;>
      simp only [] at * <;> omega

/-- C1: with a clip in the argument map, filmGrainCreate fails (sets an error on the output
map) if and only if the clip's format is not constant or not 32-bit float. In that case its
calls are exactly: one mapSetError, then one freeNode on the input node, and no
createVideoFilter, so no instance exists. Otherwise it sets no error, frees no node and calls
createVideoFilter exactly once, with the input node as the only dependency. -/
theorem filmGrainCreate_format_guard (inMap : VSMap) (node : VSNode)
    (hclip : mapGetNode inMap "clip" 0 = some node) :
    ∃ t, filmGrainCreate inMap = some t ∧
      (0 < countSetError t ↔
        (isConstantVideoFormat node.vi = false ∨
          ¬(node.vi.format.sampleType = stFloat ∧ node.vi.format.bitsPerSample = 32))) ∧
      (rejected node.vi →
        t = [.mapSetError "FilmGrain: only 32-bit float input supported", .freeNode node] ∧
        countSetError t = 1 ∧ countFreeNode node t = 1 ∧ countCreate t = 0 ∧
        createdInstance t = none) ∧
      (¬ rejected node.vi →
        countSetError t = 0 ∧ countCreate t = 1 ∧ countFreeNode node t = 0 ∧
        ∃ d, createdInstance t = some d ∧
          t = [.createVideoFilter "FilmGrain" node.vi fmParallel [⟨node, rpStrictSpatial⟩] 1 d]) := by
  by_cases hrej : rejected node.vi
  · refine ⟨_, filmGrainCreate_of_rejected inMap node hclip hrej, ?_, ?_, ?_⟩
    · simpa [countSetError, rejected] using hrej
    · intro _
      simp [countSetError, countFreeNode, countCreate, createdInstance]
    · intro h
      exact absurd hrej h
  · refine ⟨_, filmGrainCreate_of_accepted inMap node hclip hrej, ?_, ?_, ?_⟩
    · simpa [countSetError, rejected] using hrej
    · intro h
      exact absurd h hrej
    · intro _
      simp [countSetError, countFreeNode, countCreate, createdInstance]

/-- Witness for C1: a 16-bit integer clip is rejected with one error and no filter. -/
theorem filmGrainCreate_format_guard_witness :
    mapGetNode (argsNone clipInt16) "clip" 0 = some clipInt16 ∧
      ∃ t, filmGrainCreate (argsNone clipInt16) = some t ∧ countSetError t = 1 ∧
        countFreeNode clipInt16 t = 1 ∧ countCreate t = 0 := by
  refine ⟨by decide, ?_⟩
  obtain ⟨t, ht, _, hr, _⟩ := filmGrainCreate_format_guard (argsNone clipInt16) clipInt16 (by decide)
  have h := hr (by decide)
  exact ⟨t, ht, h.2.1, h.2.2.1, h.2.2.2.1⟩

/-- C2, counterexample: a present option does not always keep the supplied value. From
argsOutOfRange filmGrainCreate constructs a filter whose instance holds numIterations =
2^31 - 1, not the supplied 2^31, and grainRadiusMean = +0.0f, not the supplied 2^-200: the
supplied double is above 0, the stored float is not, and their values differ. -/
theorem filmGrainCreate_converts_supplied_values :
    mapGetInt argsOutOfRange "numIterations" 0 = some (2 ^ 31) ∧
      mapGetFloat argsOutOfRange "grainRadiusMean" 0 = some f64_tiny ∧
      (filmGrainCreate argsOutOfRange).bind createdInstance =
        some ⟨clip64, clip64.vi, 2 ^ 31 - 1, f32_0_0, f32_0_0, f32_0_8, 114514⟩ ∧
      (2 ^ 31 - 1 : Int) ≠ 2 ^ 31 ∧
      F64.gtZero f64_tiny = true ∧ F32.gtZero f32_0_0 = false ∧
      F32.toRat f32_0_0 ≠ F64.toRat f64_tiny := by
  refine ⟨by decide, by decide, by decide, by decide, by decide, by decide, ?_⟩
  norm_num [F32.toRat, F64.toRat, f32_0_0, f64_tiny]

/-- C2, amended: for an accepted clip, the instance created from a map with none of the five
options is the default instance (800, 0.1f, 0.0f, 0.8f, 114514) and equals, field by field, the
instance created from a map that supplies 800, 0.1, 0.0, 0.8, 114514. For any argument map m
each option is settled on its own: an option that cannot be read takes its default, a supplied
integer is stored saturated to int (unchanged when it fits an int), a supplied double is stored
converted to float. -/
theorem filmGrainCreate_defaults (node : VSNode) (m0 m1 m : VSMap)
    (hacc : ¬ rejected node.vi)
    (c0 : mapGetNode m0 "clip" 0 = some node) (c1 : mapGetNode m1 "clip" 0 = some node)
    (c : mapGetNode m "clip" 0 = some node)
    (h0 : noOptions m0) (h1 : explicitDefaults m1) :
    (filmGrainCreate m0).bind createdInstance = some (defaultData node) ∧
    (filmGrainCreate m1).bind createdInstance = (filmGrainCreate m0).bind createdInstance ∧
    ∃ d, (filmGrainCreate m).bind createdInstance = some d ∧
      d.node = node ∧ d.vi = node.vi ∧
      (mapGetInt m "numIterations" 0 = none → d.numIterations = 800) ∧
      (∀ v, mapGetInt m "numIterations" 0 = some v →
        d.numIterations = int64ToIntS v ∧ (-(2 ^ 31) ≤ v → v < 2 ^ 31 → d.numIterations = v)) ∧
      (mapGetFloat m "grainRadiusMean" 0 = none → d.grainRadiusMean = f32_0_1) ∧
      (∀ v, mapGetFloat m "grainRadiusMean" 0 = some v → d.grainRadiusMean = F64.toF32 v) ∧
      (mapGetFloat m "grainRadiusStd" 0 = none → d.grainRadiusStd = f32_0_0) ∧
      (∀ v, mapGetFloat m "grainRadiusStd" 0 = some v → d.grainRadiusStd = F64.toF32 v) ∧
      (mapGetFloat m "sigma" 0 = none → d.sigma = f32_0_8) ∧
      (∀ v, mapGetFloat m "sigma" 0 = some v → d.sigma = F64.toF32 v) ∧
      (mapGetInt m "seed" 0 = none → d.seed = 114514) ∧
      (∀ v, mapGetInt m "seed" 0 = some v →
        d.seed = int64ToIntS v ∧ (-(2 ^ 31) ≤ v → v < 2 ^ 31 → d.seed = v)) := by
  have e0 : (filmGrainCreate m0).bind createdInstance = some (defaultData node) := by
    obtain ⟨a1, a2, a3, a4, a5⟩ := h0
    rw [filmGrainCreate_of_accepted m0 node c0 hacc]
    simp [createdInstance, mapGetIntSaturated, a1, a2, a3, a4, a5, defaultData]
  have e1 : (filmGrainCreate m1).bind createdInstance = some (defaultData node) := by
    obtain ⟨a1, a2, a3, a4, a5⟩ := h1
    rw [filmGrainCreate_of_accepted m1 node c1 hacc]
    simp only [Option.bind, createdInstance, mapGetIntSaturated, a1, a2, a3, a4, a5, defaultData,
      Option.map, Option.getD]
    have t1 : F64.toF32 f64_0_1 = f32_0_1 := by decide
    have t2 : F64.toF32 f64_0_0 = f32_0_0 := by decide
    have t3 : F64.toF32 f64_0_8 = f32_0_8 := by decide
    have t4 : int64ToIntS 800 = 800 := by decide
    have t5 : int64ToIntS 114514 = 114514 := by decide
    rw [t1, t2, t3, t4, t5]
  refine ⟨e0, e1.trans e0.symm, ?_⟩
  rw [filmGrainCreate_of_accepted m node c hacc]
  refine ⟨_, rfl, rfl, rfl, ?_⟩
  · simp only [mapGetIntSaturated]
    refine ⟨?_, ?_, ?_, ?_, ?_, ?_, ?_, ?_, ?_, ?_⟩
    · intro h; simp [h]
    · intro v h
      simp only [h, Option.map, Option.getD, true_and]
      exact int64ToIntS_of_inRange v
    · intro h; simp [h]
    · intro v h; simp [h]
    · intro h; simp [h]
    · intro v h; simp [h]
    · intro h; simp [h]
    · intro v h; simp [h]
    · intro h; simp [h]
    · intro v h
      simp only [h, Option.map, Option.getD, true_and]
      exact int64ToIntS_of_inRange v

/-- Witness for C2: the 64x64 float clip, with the literal argument maps. -/
theorem filmGrainCreate_defaults_witness :
    (filmGrainCreate (argsNone clip64)).bind createdInstance = some (defaultData clip64) ∧
    (filmGrainCreate (argsExplicit clip64)).bind createdInstance =
      (filmGrainCreate (argsNone clip64)).bind createdInstance :=
  have h := filmGrainCreate_defaults clip64 (argsNone clip64) (argsExplicit clip64)
    (argsExplicit clip64) (by decide) (by decide) (by decide) (by decide) (by decide) (by decide)
  ⟨h.1, h.2.1⟩

theorem planeLoop_call_params (K : Kernel) (d : FilmGrainData) (fi : VSVideoFormat)
    (src dst : VSFrame) (count plane : Nat) (mem : Mem) (c : BridgeCall)
    (hc : c ∈ bridgeCalls (planeLoop K d fi src dst count plane mem).2.2) :
    c.numIterations = d.numIterations ∧ c.grainRadiusMean = d.grainRadiusMean ∧
      c.grainRadiusStd = d.grainRadiusStd ∧ c.sigma = d.sigma ∧ c.seed = d.seed := by
  induction count generalizing plane mem with
  | zero => simp [planeLoop, bridgeCalls] at hc
  | succ k ih =>
    unfold planeLoop at hc
    simp only at hc
    split_ifs at hc with h
    · simp only [bridgeCalls, List.mem_cons] at hc
      rcases hc with rfl | hc
      · exact ⟨rfl, rfl, rfl, rfl, rfl⟩
      · exact ih _ _ hc
    · simp [bridgeCalls] at hc

/-- Every kernel call filmGrainGetFrame makes, for any activation reason, carries the five
parameters of the instance data unchanged. -/
theorem filmGrainGetFrame_call_params (K : Kernel) (host : Host) (n ar : Int)
    (d : FilmGrainData) (mem : Mem) (c : BridgeCall)
    (hc : c ∈ bridgeCalls (filmGrainGetFrame K host n ar d mem).trace) :
    c.numIterations = d.numIterations ∧ c.grainRadiusMean = d.grainRadiusMean ∧
      c.grainRadiusStd = d.grainRadiusStd ∧ c.sigma = d.sigma ∧ c.seed = d.seed := by
  unfold filmGrainGetFrame at hc
  split_ifs at hc
  · simp [bridgeCalls] at hc
  · simp only [bridgeCalls] at hc
    exact planeLoop_call_params K d _ _ _ _ _ _ c hc
  · simp [bridgeCalls] at hc

/-- C8, counterexample: filmGrainCreate constructs a filter from argsInvalid, and its instance
holds numIterations = 0 and -1.0f for the radius mean, the radius deviation and sigma: none of
the four parameters is valid, and the kernel is called with them. -/
theorem filmGrainCreate_keeps_invalid_params :
    (filmGrainCreate argsInvalid).bind createdInstance =
        some ⟨clip64, clip64.vi, 0, f32_neg_1, f32_neg_1, f32_neg_1, 114514⟩ ∧
      ¬ validParams ⟨clip64, clip64.vi, 0, f32_neg_1, f32_neg_1, f32_neg_1, 114514⟩ ∧
      bridgeCalls (filmGrainGetFrame copyKernel host64 0 arAllFramesReady
          ⟨clip64, clip64.vi, 0, f32_neg_1, f32_neg_1, f32_neg_1, 114514⟩ (fun _ => f32_0_0)).trace =
        [⟨4096, 65536, 64, 64, 64, 0, f32_neg_1, f32_neg_1, f32_neg_1, 114514⟩] ∧
      ¬ (∀ inMap d, (filmGrainCreate inMap).bind createdInstance = some d → validParams d) := by
  have h1 : (filmGrainCreate argsInvalid).bind createdInstance =
      some ⟨clip64, clip64.vi, 0, f32_neg_1, f32_neg_1, f32_neg_1, 114514⟩ := by decide
  have h2 : ¬ validParams ⟨clip64, clip64.vi, 0, f32_neg_1, f32_neg_1, f32_neg_1, 114514⟩ := by
    decide
  exact ⟨h1, h2, by decide, fun h => h2 (h _ _ h1)⟩

/-- C8, amended: an instance filmGrainCreate constructs holds valid parameters (numIterations
at least 1, grainRadiusMean above 0, grainRadiusStd and sigma at least 0) whenever every option
the caller supplies is valid: a supplied numIterations is at least 1, a supplied
grainRadiusMean is still above 0 once converted to float, a supplied grainRadiusStd and a
supplied sigma are at least 0; nothing is asked of an option that is not supplied. Every
kernel call filmGrainGetFrame makes for that instance then carries valid parameters. -/
theorem filmGrainCreate_valid_of_valid_args (inMap : VSMap) (d : FilmGrainData)
    (hd : (filmGrainCreate inMap).bind createdInstance = some d)
    (hn : ∀ v, mapGetInt inMap "numIterations" 0 = some v → 1 ≤ v)
    (hm : ∀ v, mapGetFloat inMap "grainRadiusMean" 0 = some v → (F64.toF32 v).gtZero = true)
    (hs : ∀ v, mapGetFloat inMap "grainRadiusStd" 0 = some v → v.geZero = true)
    (hg : ∀ v, mapGetFloat inMap "sigma" 0 = some v → v.geZero = true) :
    validParams d ∧
      ∀ (K : Kernel) (host : Host) (n ar : Int) (mem : Mem) (c : BridgeCall),
        c ∈ bridgeCalls (filmGrainGetFrame K host n ar d mem).trace →
        1 ≤ c.numIterations ∧ c.grainRadiusMean.gtZero = true ∧
          c.grainRadiusStd.geZero = true ∧ c.sigma.geZero = true := by
  have hv : validParams d := by
    cases hclip : mapGetNode inMap "clip" 0 with
    | none => simp [filmGrainCreate, hclip] at hd
    | some node =>
      by_cases hrej : rejected node.vi
      · rw [filmGrainCreate_of_rejected inMap node hclip hrej] at hd
        simp [createdInstance] at hd
      · rw [filmGrainCreate_of_accepted inMap node hclip hrej] at hd
        simp only [Option.bind, createdInstance, Option.some.injEq] at hd
        subst hd
        refine ⟨?_, ?_, ?_, ?_⟩
        · simp only [mapGetIntSaturated]
          cases h : mapGetInt inMap "numIterations" 0 with
          | none => simp
          | some v => simpa using one_le_int64ToIntS v (hn v h)
        · simp only
          cases h : mapGetFloat inMap "grainRadiusMean" 0 with
          | none => decide
          | some v => simpa using hm v h
        · simp only
          cases h : mapGetFloat inMap "grainRadiusStd" 0 with
          | none => decide
          | some v => simpa using F64.geZero_toF32 v (hs v h)
        · simp only
          cases h : mapGetFloat inMap "sigma" 0 with
          | none => decide
          | some v => simpa using F64.geZero_toF32 v (hg v h)
  refine ⟨hv, fun K host n ar mem c hc => ?_⟩
  obtain ⟨e1, e2, e3, e4, _⟩ := filmGrainGetFrame_call_params K host n ar d mem c hc
  rw [e1, e2, e3, e4]
  exact hv

/-- Witness for C8 amended: the explicit default arguments are valid and give a valid set
of parameters. -/
theorem filmGrainCreate_valid_of_valid_args_witness : validParams (defaultData clip64) :=
  (filmGrainCreate_valid_of_valid_args (argsExplicit clip64) (defaultData clip64) (by decide)
    (fun v h => by
      have e : mapGetInt (argsExplicit clip64) "numIterations" 0 = some 800 := by decide
      rw [e] at h
      cases h
      decide)
    (fun v h => by
      have e : mapGetFloat (argsExplicit clip64) "grainRadiusMean" 0 = some f64_0_1 := by decide
      rw [e] at h
      cases h
      decide)
    (fun v h => by
      have e : mapGetFloat (argsExplicit clip64) "grainRadiusStd" 0 = some f64_0_0 := by decide
      rw [e] at h
      cases h
      decide)
    (fun v h => by
      have e : mapGetFloat (argsExplicit clip64) "sigma" 0 = some f64_0_8 := by decide
      rw [e] at h
      cases h
      decide)).1

/-! ## filmGrainGetFrame -/

theorem wrapInt32_of_inRange (s : Int) (h1 : -(2 ^ 31) ≤ s) (h2 : s < 2 ^ 31) :
    wrapInt32 s = s := by
  unfold wrapInt32
  omega

theorem strideArg_of_inRange (s : Int) (h1 : -(2 ^ 31) ≤ s) (h2 : s < 2 ^ 31) :
    strideArg (wrapInt32 s) = s / 4 := by
  rw [wrapInt32_of_inRange s h1 h2]
  unfold strideArg wrapInt32
  omega

theorem bridgeCalls_append_free (f : Nat → BridgeCall) (l : List Nat) (t : List Event)
    (ht : bridgeCalls t = []) :
    bridgeCalls ((l.map fun p => Event.bridge (f p)) ++ t) = l.map f := by
  induction l with
  | nil => simpa using ht
  | cons c cs ih => simp [bridgeCalls, ih]

theorem int_shiftRight_zero (x : Int) : x >>> (0 : Nat) = x := by
  cases x <;> rfl

theorem planeLoop_float (K : Kernel) (d : FilmGrainData) (fi : VSVideoFormat) (src dst : VSFrame)
    (hs : fi.sampleType = stFloat) (hb : fi.bitsPerSample = 32) (count plane : Nat) (mem : Mem) :
    (planeLoop K d fi src dst count plane mem).1 = some dst ∧
      (planeLoop K d fi src dst count plane mem).2.2 =
        ((List.range' plane count).map fun p => Event.bridge (planeCall d src dst p)) ++
          [.freeFrame src.id] := by
  induction count generalizing plane mem with
  | zero => simp [planeLoop]
  | succ k ih =>
    simp only [planeLoop, hs, hb, and_self, if_true]
    refine ⟨(ih _ _).1, ?_⟩
    rw [(ih _ _).2]
    simp [List.range', planeCall]

theorem planeLoop_mismatch (K : Kernel) (d : FilmGrainData) (fi : VSVideoFormat)
    (src dst : VSFrame) (h : ¬(fi.sampleType = stFloat ∧ fi.bitsPerSample = 32))
    (count plane : Nat) (mem : Mem) :
    planeLoop K d fi src dst (count + 1) plane mem =
      (none, mem, [.freeFrame src.id, .freeFrame dst.id]) := by
  simp only [planeLoop, h, if_false]

theorem filmGrainGetFrame_float (K : Kernel) (host : Host) (n : Int) (d : FilmGrainData)
    (mem : Mem) (hs : (host.getFrameFilter n d.node).format.sampleType = stFloat)
    (hb : (host.getFrameFilter n d.node).format.bitsPerSample = 32) :
    (filmGrainGetFrame K host n arAllFramesReady d mem).ret =
        some (dstFrame host (host.getFrameFilter n d.node)) ∧
      (filmGrainGetFrame K host n arAllFramesReady d mem).trace =
        .getFrameFilter n d.node ::
        .newVideoFrame (host.getFrameFilter n d.node).format
          (getFrameWidth (host.getFrameFilter n d.node) 0)
          (getFrameHeight (host.getFrameFilter n d.node) 0) (host.getFrameFilter n d.node).id ::
        (((List.range (host.getFrameFilter n d.node).format.numPlanes.toNat).map fun p =>
          Event.bridge (planeCall d (host.getFrameFilter n d.node)
            (dstFrame host (host.getFrameFilter n d.node)) p)) ++
          [.freeFrame (host.getFrameFilter n d.node).id]) := by
  have hne : arAllFramesReady ≠ arInitial := by decide
  simp only [filmGrainGetFrame, hne, if_false, if_true, getVideoFrameFormat]
  have h := planeLoop_float K d (host.getFrameFilter n d.node).format
    (host.getFrameFilter n d.node) (dstFrame host (host.getFrameFilter n d.node)) hs hb
    (host.getFrameFilter n d.node).format.numPlanes.toNat 0 mem
  rw [List.range_eq_range']
  exact ⟨h.1, by rw [← h.2]; rfl⟩

theorem filmGrainGetFrame_mismatch (K : Kernel) (host : Host) (n : Int) (d : FilmGrainData)
    (mem : Mem) (hp : 1 ≤ (host.getFrameFilter n d.node).format.numPlanes)
    (h : ¬((host.getFrameFilter n d.node).format.sampleType = stFloat ∧
      (host.getFrameFilter n d.node).format.bitsPerSample = 32)) :
    (filmGrainGetFrame K host n arAllFramesReady d mem).ret = none ∧
      (filmGrainGetFrame K host n arAllFramesReady d mem).mem = mem ∧
      (filmGrainGetFrame K host n arAllFramesReady d mem).trace =
        [.getFrameFilter n d.node,
         .newVideoFrame (host.getFrameFilter n d.node).format
          (getFrameWidth (host.getFrameFilter n d.node) 0)
          (getFrameHeight (host.getFrameFilter n d.node) 0) (host.getFrameFilter n d.node).id,
         .freeFrame (host.getFrameFilter n d.node).id,
         .freeFrame (dstFrame host (host.getFrameFilter n d.node)).id] := by
  have hne : arAllFramesReady ≠ arInitial := by decide
  obtain ⟨k, hk⟩ : ∃ k, (host.getFrameFilter n d.node).format.numPlanes.toNat = k + 1 :=
    ⟨(host.getFrameFilter n d.node).format.numPlanes.toNat - 1, by omega⟩
  simp only [filmGrainGetFrame, hne, if_false, if_true, getVideoFrameFormat, hk,
    planeLoop_mismatch K d _ _ _ h, dstFrame, and_self]

theorem bridgeCalls_float (K : Kernel) (host : Host) (n : Int) (d : FilmGrainData)
    (mem : Mem) (hs : (host.getFrameFilter n d.node).format.sampleType = stFloat)
    (hb : (host.getFrameFilter n d.node).format.bitsPerSample = 32) :
    bridgeCalls (filmGrainGetFrame K host n arAllFramesReady d mem).trace =
      (List.range (host.getFrameFilter n d.node).format.numPlanes.toNat).map fun p =>
        planeCall d (host.getFrameFilter n d.node)
          (dstFrame host (host.getFrameFilter n d.node)) p := by
  rw [(filmGrainGetFrame_float K host n d mem hs hb).2]
  simp only [bridgeCalls]
  exact bridgeCalls_append_free _ _ _ rfl

theorem countFree_bridges (x : Nat) (cs : List BridgeCall) (t : List Event) :
    countFree x (cs.map Event.bridge ++ t) = countFree x t := by
  induction cs with
  | nil => rfl
  | cons c cs ih =>
    simp only [countFree] at ih ⊢
    simp [List.count_cons, ih]

/-- C3: for every 32-bit float source frame, the all-frames-ready activation returns a frame of
the source frame's format (so of the same plane count) whose planes have the width and height
of the source planes. -/
theorem filmGrainGetFrame_shape (K : Kernel) (host : Host) (n : Int) (d : FilmGrainData)
    (mem : Mem) (hs : (host.getFrameFilter n d.node).format.sampleType = stFloat)
    (hb : (host.getFrameFilter n d.node).format.bitsPerSample = 32) :
    ∃ out, (filmGrainGetFrame K host n arAllFramesReady d mem).ret = some out ∧
      out.format = (host.getFrameFilter n d.node).format ∧
      out.format.numPlanes = (host.getFrameFilter n d.node).format.numPlanes ∧
      ∀ p, getFrameWidth out p = getFrameWidth (host.getFrameFilter n d.node) p ∧
        getFrameHeight out p = getFrameHeight (host.getFrameFilter n d.node) p := by
  refine ⟨_, (filmGrainGetFrame_float K host n d mem hs hb).1, rfl, rfl, fun p => ?_⟩
  simp [dstFrame, newVideoFrame, getFrameWidth, getFrameHeight, int_shiftRight_zero]

/-- Witness for C3: a 64x64 single-plane float frame gives a 64x64 single-plane output. -/
theorem filmGrainGetFrame_shape_witness :
    ∃ out, (filmGrainGetFrame (fun _ _ _ _ _ _ _ _ _ _ _ => f32_0_0) host64 0 arAllFramesReady
        (defaultData clip64) (fun _ => f32_0_0)).ret = some out ∧
      out.format.numPlanes = 1 ∧ getFrameWidth out 0 = 64 ∧ getFrameHeight out 0 = 64 := by
  obtain ⟨out, h1, _, h3, h4⟩ := filmGrainGetFrame_shape (fun _ _ _ _ _ _ _ _ _ _ _ => f32_0_0)
    host64 0 (defaultData clip64) (fun _ => f32_0_0) (by decide) (by decide)
  exact ⟨out, h1, h3.trans (by decide), (h4 0).1.trans (by decide), (h4 0).2.trans (by decide)⟩

/-- C4: with the initial activation reason, filmGrainGetFrame makes exactly one call, the
request of frame n from the instance's node; it returns no frame and leaves the memory and
the instance data as they were (no fetch, no allocation, no kernel call). -/
theorem filmGrainGetFrame_initial (K : Kernel) (host : Host) (n : Int) (d : FilmGrainData)
    (mem : Mem) :
    (filmGrainGetFrame K host n arInitial d mem).trace = [.requestFrameFilter n d.node] ∧
      (filmGrainGetFrame K host n arInitial d mem).ret = none ∧
      (filmGrainGetFrame K host n arInitial d mem).mem = mem ∧
      (filmGrainGetFrame K host n arInitial d mem).inst = d ∧
      bridgeCalls (filmGrainGetFrame K host n arInitial d mem).trace = [] := by
  simp [filmGrainGetFrame, bridgeCalls]

/-- C5: on an all-frames-ready request whose source frame has at least one plane: if the
format is not (float, 32 bits) no frame is returned, the kernel is never called and the memory
is untouched; otherwise the new frame is returned after exactly numPlanes kernel calls. Hence
a returned frame always comes with numPlanes kernel calls and a float format. -/
theorem filmGrainGetFrame_all_or_nothing (K : Kernel) (host : Host) (n : Int)
    (d : FilmGrainData) (mem : Mem)
    (hp : 1 ≤ (host.getFrameFilter n d.node).format.numPlanes) :
    (¬((host.getFrameFilter n d.node).format.sampleType = stFloat ∧
        (host.getFrameFilter n d.node).format.bitsPerSample = 32) →
      (filmGrainGetFrame K host n arAllFramesReady d mem).ret = none ∧
      bridgeCalls (filmGrainGetFrame K host n arAllFramesReady d mem).trace = [] ∧
      (filmGrainGetFrame K host n arAllFramesReady d mem).mem = mem) ∧
    (((host.getFrameFilter n d.node).format.sampleType = stFloat ∧
        (host.getFrameFilter n d.node).format.bitsPerSample = 32) →
      (filmGrainGetFrame K host n arAllFramesReady d mem).ret =
        some (dstFrame host (host.getFrameFilter n d.node)) ∧
      ((bridgeCalls (filmGrainGetFrame K host n arAllFramesReady d mem).trace).length : Int) =
        (host.getFrameFilter n d.node).format.numPlanes) ∧
    (∀ f, (filmGrainGetFrame K host n arAllFramesReady d mem).ret = some f →
      ((bridgeCalls (filmGrainGetFrame K host n arAllFramesReady d mem).trace).length : Int) =
          (host.getFrameFilter n d.node).format.numPlanes ∧
        (host.getFrameFilter n d.node).format.sampleType = stFloat ∧
        (host.getFrameFilter n d.node).format.bitsPerSample = 32) := by
  have hfloat : ((host.getFrameFilter n d.node).format.sampleType = stFloat ∧
        (host.getFrameFilter n d.node).format.bitsPerSample = 32) →
      (filmGrainGetFrame K host n arAllFramesReady d mem).ret =
        some (dstFrame host (host.getFrameFilter n d.node)) ∧
      ((bridgeCalls (filmGrainGetFrame K host n arAllFramesReady d mem).trace).length : Int) =
        (host.getFrameFilter n d.node).format.numPlanes := by
    rintro ⟨hs, hb⟩
    refine ⟨(filmGrainGetFrame_float K host n d mem hs hb).1, ?_⟩
    rw [bridgeCalls_float K host n d mem hs hb]
    simp only [List.length_map, List.length_range]
    omega
  refine ⟨fun h => ?_, hfloat, fun f hf => ?_⟩
  · obtain ⟨h1, h2, h3⟩ := filmGrainGetFrame_mismatch K host n d mem hp h
    exact ⟨h1, by rw [h3]; rfl, h2⟩
  · by_cases h : (host.getFrameFilter n d.node).format.sampleType = stFloat ∧
        (host.getFrameFilter n d.node).format.bitsPerSample = 32
    · exact ⟨(hfloat h).2, h⟩
    · rw [(filmGrainGetFrame_mismatch K host n d mem hp h).1] at hf
      cases hf

/-- Witness for C5: the 64x64 single-plane float frame: one kernel call, a frame returned. -/
theorem filmGrainGetFrame_all_or_nothing_witness :
    (filmGrainGetFrame (fun _ _ _ _ _ _ _ _ _ _ _ => f32_0_0) host64 5 arAllFramesReady
        (defaultData clip64) (fun _ => f32_0_0)).ret = some (dstFrame host64 (host64.getFrameFilter 5 clip64)) ∧
      ((bridgeCalls (filmGrainGetFrame (fun _ _ _ _ _ _ _ _ _ _ _ => f32_0_0) host64 5
        arAllFramesReady (defaultData clip64) (fun _ => f32_0_0)).trace).length : Int) = 1 :=
  (filmGrainGetFrame_all_or_nothing (fun _ _ _ _ _ _ _ _ _ _ _ => f32_0_0) host64 5
    (defaultData clip64) (fun _ => f32_0_0) (by decide)).2.1 (by decide)

/-- C6: on an all-frames-ready request with a 32-bit float source frame, the kernel calls are
exactly one per plane p = 0 .. numPlanes - 1, in increasing order; call p gets the read pointer
of source plane p, the write pointer of destination plane p, the width and height of source
plane p, the source byte stride converted by srcStride / sizeof(float), and the instance's five
parameters. For a byte stride that fits an int the stride argument is the stride divided by 4
(floor), so it is at least the width when the byte stride is non-negative and at least
4 * width. The calls depend on n only through the source frame. -/
theorem filmGrainGetFrame_kernel_calls (K : Kernel) (host : Host) (n : Int) (d : FilmGrainData)
    (mem : Mem) (hs : (host.getFrameFilter n d.node).format.sampleType = stFloat)
    (hb : (host.getFrameFilter n d.node).format.bitsPerSample = 32) :
    bridgeCalls (filmGrainGetFrame K host n arAllFramesReady d mem).trace =
        ((List.range (host.getFrameFilter n d.node).format.numPlanes.toNat).map fun p =>
          (⟨getReadPtr (host.getFrameFilter n d.node) p,
            getWritePtr (dstFrame host (host.getFrameFilter n d.node)) p,
            getFrameWidth (host.getFrameFilter n d.node) p,
            getFrameHeight (host.getFrameFilter n d.node) p,
            strideArg (wrapInt32 (getStride (host.getFrameFilter n d.node) p)),
            d.numIterations, d.grainRadiusMean, d.grainRadiusStd, d.sigma, d.seed⟩ : BridgeCall)) ∧
      (∀ p, -(2 ^ 31) ≤ getStride (host.getFrameFilter n d.node) p →
        getStride (host.getFrameFilter n d.node) p < 2 ^ 31 →
        strideArg (wrapInt32 (getStride (host.getFrameFilter n d.node) p)) =
          getStride (host.getFrameFilter n d.node) p / 4) ∧
      (∀ p, 0 ≤ getStride (host.getFrameFilter n d.node) p →
        getStride (host.getFrameFilter n d.node) p < 2 ^ 31 →
        4 * getFrameWidth (host.getFrameFilter n d.node) p ≤
          getStride (host.getFrameFilter n d.node) p →
        getFrameWidth (host.getFrameFilter n d.node) p ≤
          strideArg (wrapInt32 (getStride (host.getFrameFilter n d.node) p))) ∧
      (∀ n2 mem2, host.getFrameFilter n2 d.node = host.getFrameFilter n d.node →
        bridgeCalls (filmGrainGetFrame K host n2 arAllFramesReady d mem2).trace =
          bridgeCalls (filmGrainGetFrame K host n arAllFramesReady d mem).trace) := by
  refine ⟨bridgeCalls_float K host n d mem hs hb, fun p h1 h2 => strideArg_of_inRange _ h1 h2,
    fun p h0 h2 hw => ?_, fun n2 mem2 he => ?_⟩
  · rw [strideArg_of_inRange _ (by omega) h2]
    omega
  · rw [bridgeCalls_float K host n d mem hs hb,
      bridgeCalls_float K host n2 d mem2 (by rw [he]; exact hs) (by rw [he]; exact hb), he]

/-- Witness for C6: the 64x64 float frame with a 256-byte stride: one call, stride 64. -/
theorem filmGrainGetFrame_kernel_calls_witness :
    bridgeCalls (filmGrainGetFrame (fun _ _ _ _ _ _ _ _ _ _ _ => f32_0_0) host64 9
        arAllFramesReady (defaultData clip64) (fun _ => f32_0_0)).trace =
      [⟨4096, 65536, 64, 64, 64, 800, f32_0_1, f32_0_0, f32_0_8, 114514⟩] :=
  (filmGrainGetFrame_kernel_calls (fun _ _ _ _ _ _ _ _ _ _ _ => f32_0_0) host64 9
    (defaultData clip64) (fun _ => f32_0_0) (by decide) (by decide)).1.trans (by decide)

/-- C9: on an all-frames-ready request whose source frame has at least one plane, with the new
frame's handle distinct from the source frame's: the source frame is freed exactly once; the
new frame is freed exactly once when the format check fails (and nothing is returned) and not
at all when it succeeds (and it is returned); a returned frame is the new frame and has not
been freed. -/
theorem filmGrainGetFrame_ownership (K : Kernel) (host : Host) (n : Int) (d : FilmGrainData)
    (mem : Mem) (hp : 1 ≤ (host.getFrameFilter n d.node).format.numPlanes)
    (hfresh : host.newFrameId ≠ (host.getFrameFilter n d.node).id) :
    countFree (host.getFrameFilter n d.node).id
        (filmGrainGetFrame K host n arAllFramesReady d mem).trace = 1 ∧
    (¬((host.getFrameFilter n d.node).format.sampleType = stFloat ∧
        (host.getFrameFilter n d.node).format.bitsPerSample = 32) →
      countFree host.newFrameId (filmGrainGetFrame K host n arAllFramesReady d mem).trace = 1 ∧
      (filmGrainGetFrame K host n arAllFramesReady d mem).ret = none) ∧
    (((host.getFrameFilter n d.node).format.sampleType = stFloat ∧
        (host.getFrameFilter n d.node).format.bitsPerSample = 32) →
      countFree host.newFrameId (filmGrainGetFrame K host n arAllFramesReady d mem).trace = 0 ∧
      (filmGrainGetFrame K host n arAllFramesReady d mem).ret =
        some (dstFrame host (host.getFrameFilter n d.node))) ∧
    (∀ f, (filmGrainGetFrame K host n arAllFramesReady d mem).ret = some f →
      f.id = host.newFrameId ∧
      Event.freeFrame f.id ∉ (filmGrainGetFrame K host n arAllFramesReady d mem).trace) := by
  have hfloat : ((host.getFrameFilter n d.node).format.sampleType = stFloat ∧
        (host.getFrameFilter n d.node).format.bitsPerSample = 32) →
      countFree (host.getFrameFilter n d.node).id
        (filmGrainGetFrame K host n arAllFramesReady d mem).trace = 1 ∧
      countFree host.newFrameId (filmGrainGetFrame K host n arAllFramesReady d mem).trace = 0 ∧
      (filmGrainGetFrame K host n arAllFramesReady d mem).ret =
        some (dstFrame host (host.getFrameFilter n d.node)) := by
    rintro ⟨hs, hb⟩
    obtain ⟨h1, h2⟩ := filmGrainGetFrame_float K host n d mem hs hb
    rw [h2]
    refine ⟨?_, ?_, h1⟩
    · have := countFree_bridges (host.getFrameFilter n d.node).id
        ((List.range (host.getFrameFilter n d.node).format.numPlanes.toNat).map fun p =>
          planeCall d (host.getFrameFilter n d.node)
            (dstFrame host (host.getFrameFilter n d.node)) p)
        [.freeFrame (host.getFrameFilter n d.node).id]
      rw [List.map_map] at this
      simp only [countFree] at this ⊢
      simp only [List.count_cons, Function.comp_def] at this ⊢
      simp [this]
    · have := countFree_bridges host.newFrameId
        ((List.range (host.getFrameFilter n d.node).format.numPlanes.toNat).map fun p =>
          planeCall d (host.getFrameFilter n d.node)
            (dstFrame host (host.getFrameFilter n d.node)) p)
        [.freeFrame (host.getFrameFilter n d.node).id]
      rw [List.map_map] at this
      simp only [countFree] at this ⊢
      simp only [List.count_cons, Function.comp_def] at this ⊢
      simp [this, Ne.symm hfresh]
  have hmis : ¬((host.getFrameFilter n d.node).format.sampleType = stFloat ∧
        (host.getFrameFilter n d.node).format.bitsPerSample = 32) →
      countFree (host.getFrameFilter n d.node).id
        (filmGrainGetFrame K host n arAllFramesReady d mem).trace = 1 ∧
      countFree host.newFrameId (filmGrainGetFrame K host n arAllFramesReady d mem).trace = 1 ∧
      (filmGrainGetFrame K host n arAllFramesReady d mem).ret = none := by
    intro h
    obtain ⟨h1, _, h3⟩ := filmGrainGetFrame_mismatch K host n d mem hp h
    rw [h3]
    refine ⟨?_, ?_, h1⟩
    · simp [countFree, List.count_cons, dstFrame, newVideoFrame, hfresh]
    · simp [countFree, List.count_cons, dstFrame, newVideoFrame, Ne.symm hfresh]
  by_cases h : (host.getFrameFilter n d.node).format.sampleType = stFloat ∧
      (host.getFrameFilter n d.node).format.bitsPerSample = 32
  · obtain ⟨a, b, c⟩ := hfloat h
    refine ⟨a, fun h2 => absurd h h2, fun _ => ⟨b, c⟩, fun f hf => ?_⟩
    rw [c] at hf
    cases hf
    refine ⟨rfl, ?_⟩
    intro hmem
    have : 0 < countFree host.newFrameId
        (filmGrainGetFrame K host n arAllFramesReady d mem).trace :=
      List.count_pos_iff.mpr hmem
    omega
  · obtain ⟨a, b, c⟩ := hmis h
    refine ⟨a, fun _ => ⟨b, c⟩, fun h2 => absurd h2 h, fun f hf => ?_⟩
    rw [c] at hf
    cases hf

/-- Witness for C9: the 64x64 float frame (handle 7) and the new frame (handle 8). -/
theorem filmGrainGetFrame_ownership_witness :
    countFree 7 (filmGrainGetFrame (fun _ _ _ _ _ _ _ _ _ _ _ => f32_0_0) host64 2
        arAllFramesReady (defaultData clip64) (fun _ => f32_0_0)).trace = 1 ∧
      countFree 8 (filmGrainGetFrame (fun _ _ _ _ _ _ _ _ _ _ _ => f32_0_0) host64 2
        arAllFramesReady (defaultData clip64) (fun _ => f32_0_0)).trace = 0 :=
  have h := filmGrainGetFrame_ownership (fun _ _ _ _ _ _ _ _ _ _ _ => f32_0_0) host64 2
    (defaultData clip64) (fun _ => f32_0_0) (by decide) (by decide)
  ⟨h.1, (h.2.2.1 (by decide)).1⟩

/-! ## The destination stride -/

/-- C10, at a failing input: a 3x2 float frame whose new destination frame has 32-byte rows
(more than 4 * 3 bytes). The kernel's result for pixel (0, 1) is 0.8 and the bridge stores it at
sample 1 * 3 + 0 of the output buffer, but pixel (0, 1) of the returned frame, addressed through
the destination stride, still holds the 0.0 that was in memory before the call. -/
theorem filmGrainGetFrame_padded_row_not_written :
    (filmGrainGetFrame copyKernel hostPad 0 arAllFramesReady (defaultData clip3x2) memPad).ret =
        some ⟨8, grayS, 3, 2, [⟨8192, 32⟩]⟩ ∧
      bridgeCalls (filmGrainGetFrame copyKernel hostPad 0 arAllFramesReady (defaultData clip3x2)
        memPad).trace = [⟨4096, 8192, 3, 2, 8, 800, f32_0_1, f32_0_0, f32_0_8, 114514⟩] ∧
      kernelResult copyKernel memPad
        ⟨4096, 8192, 3, 2, 8, 800, f32_0_1, f32_0_0, f32_0_8, 114514⟩ 0 1 = f32_0_8 ∧
      (filmGrainGetFrame copyKernel hostPad 0 arAllFramesReady (defaultData clip3x2) memPad).mem
        (8192 + 4 * (1 * 3 + 0)) = f32_0_8 ∧
      framePixel
        (filmGrainGetFrame copyKernel hostPad 0 arAllFramesReady (defaultData clip3x2) memPad).mem
        ⟨8, grayS, 3, 2, [⟨8192, 32⟩]⟩ 0 0 1 = f32_0_0 ∧
      memPad (8192 + 32) = f32_0_0 := by
  refine ⟨by decide, by decide, by decide, by decide, by decide, by decide⟩

/-- C7, at a failing input: two all-frames-ready requests for index 0, same instance, same
kernel, same source frame content. The first is served with nothing processed before it. The
second is served after a request for index 1, which left the instance data unchanged; the
source frame of index 1 has been freed since and its buffer is recycled for the new frame.
The two returned frames differ at pixel (0, 1): 0.0 in the first, -1.0 (a sample of source
frame 1) in the second, neither being the kernel's result 0.8. Row 1 of the destination is
not written where the frame reads it, so it shows what the buffer held before. -/
theorem filmGrainGetFrame_content_depends_on_history :
    (filmGrainGetFrame copyKernel hostPad 1 arAllFramesReady (defaultData clip3x2) memPad).inst =
        defaultData clip3x2 ∧
      (∀ x, x < 3 → ∀ y, y < 2 →
        framePixel memPadAfter (hostPad.getFrameFilter 0 clip3x2) 0 x y =
          framePixel memPad (hostPad.getFrameFilter 0 clip3x2) 0 x y) ∧
      (filmGrainGetFrame copyKernel hostPad 0 arAllFramesReady (defaultData clip3x2) memPad).ret =
        some ⟨8, grayS, 3, 2, [⟨8192, 32⟩]⟩ ∧
      (filmGrainGetFrame copyKernel hostPadRecycled 0 arAllFramesReady (defaultData clip3x2)
        memPadAfter).ret = some ⟨9, grayS, 3, 2, [⟨4160, 32⟩]⟩ ∧
      bridgeCalls (filmGrainGetFrame copyKernel hostPad 0 arAllFramesReady (defaultData clip3x2)
        memPad).trace = [⟨4096, 8192, 3, 2, 8, 800, f32_0_1, f32_0_0, f32_0_8, 114514⟩] ∧
      bridgeCalls (filmGrainGetFrame copyKernel hostPadRecycled 0 arAllFramesReady
        (defaultData clip3x2) memPadAfter).trace =
          [⟨4096, 4160, 3, 2, 8, 800, f32_0_1, f32_0_0, f32_0_8, 114514⟩] ∧
      framePixel
        (filmGrainGetFrame copyKernel hostPad 0 arAllFramesReady (defaultData clip3x2) memPad).mem
        ⟨8, grayS, 3, 2, [⟨8192, 32⟩]⟩ 0 0 1 = f32_0_0 ∧
      framePixel
        (filmGrainGetFrame copyKernel hostPadRecycled 0 arAllFramesReady (defaultData clip3x2)
          memPadAfter).mem
        ⟨9, grayS, 3, 2, [⟨4160, 32⟩]⟩ 0 0 1 = f32_neg_1 ∧
      kernelResult copyKernel memPadAfter
        ⟨4096, 4160, 3, 2, 8, 800, f32_0_1, f32_0_0, f32_0_8, 114514⟩ 0 1 = f32_0_8 := by
  refine ⟨by decide, by decide, by decide, by decide, by decide, by decide, by decide, by decide,
    by decide⟩

/-! ## Instance data and unpadded destination rows -/

/-- Whatever the activation reason, filmGrainGetFrame leaves the instance data as it was. -/
theorem filmGrainGetFrame_inst (K : Kernel) (host : Host) (n ar : Int) (d : FilmGrainData)
    (mem : Mem) : (filmGrainGetFrame K host n ar d mem).inst = d := by
  unfold filmGrainGetFrame
  split_ifs <;> rfl

theorem bridge_apply (K : Kernel) (mem : Mem) (c : BridgeCall) (a : Nat) :
    runMetalComputationBridge K mem c.inputData c.outputData c.width c.height c.stride
        c.numIterations c.grainRadiusMean c.grainRadiusStd c.sigma c.seed a =
      if inWrite c a then
        kernelResult K mem c ((a - c.outputData) / 4 % c.width.toNat)
          ((a - c.outputData) / 4 / c.width.toNat)
      else mem a := rfl

theorem kernelResult_congr (K : Kernel) (mem1 mem2 : Mem) (c : BridgeCall) (x y : Nat)
    (h : ∀ a, inRead c a → mem1 a = mem2 a) :
    kernelResult K mem1 c x y = kernelResult K mem2 c x y := by
  unfold kernelResult
  congr 1
  funext j
  split_ifs with hj
  · exact h _ ⟨j, hj, rfl⟩
  · rfl

theorem planeLoop_succ_mem (K : Kernel) (d : FilmGrainData) (fi : VSVideoFormat)
    (src dst : VSFrame) (hs : fi.sampleType = stFloat) (hb : fi.bitsPerSample = 32)
    (count plane : Nat) (mem : Mem) :
    (planeLoop K d fi src dst (count + 1) plane mem).2.1 =
      (planeLoop K d fi src dst count (plane + 1)
        (runMetalComputationBridge K mem (planeCall d src dst plane).inputData
          (planeCall d src dst plane).outputData (planeCall d src dst plane).width
          (planeCall d src dst plane).height (planeCall d src dst plane).stride
          (planeCall d src dst plane).numIterations (planeCall d src dst plane).grainRadiusMean
          (planeCall d src dst plane).grainRadiusStd (planeCall d src dst plane).sigma
          (planeCall d src dst plane).seed)).2.1 := by
  simp only [planeLoop, hs, hb, and_self, if_true, planeCall]

theorem planeLoop_mem_outside (K : Kernel) (d : FilmGrainData) (fi : VSVideoFormat)
    (src dst : VSFrame) (hs : fi.sampleType = stFloat) (hb : fi.bitsPerSample = 32)
    (count plane : Nat) (mem : Mem) (a : Nat)
    (h : ∀ q, plane ≤ q → q < plane + count → ¬ inWrite (planeCall d src dst q) a) :
    (planeLoop K d fi src dst count plane mem).2.1 a = mem a := by
  induction count generalizing plane mem with
  | zero => rfl
  | succ k ih =>
    rw [planeLoop_succ_mem K d fi src dst hs hb, ih]
    · rw [bridge_apply, if_neg (h plane (le_refl _) (by omega))]
    · intro q h1 h2
      exact h q (by omega) (by omega)

theorem planeLoop_mem_written (K : Kernel) (d : FilmGrainData) (fi : VSVideoFormat)
    (src dst : VSFrame) (hs : fi.sampleType = stFloat) (hb : fi.bitsPerSample = 32)
    (count plane : Nat) (mem : Mem) (p a : Nat) (hp1 : plane ≤ p) (hp2 : p < plane + count)
    (ha : inWrite (planeCall d src dst p) a)
    (hlater : ∀ q, p < q → q < plane + count → ¬ inWrite (planeCall d src dst q) a)
    (hearlier : ∀ q b, plane ≤ q → q < p → inWrite (planeCall d src dst q) b →
      ¬ inRead (planeCall d src dst p) b) :
    (planeLoop K d fi src dst count plane mem).2.1 a =
      kernelResult K mem (planeCall d src dst p)
        ((a - (planeCall d src dst p).outputData) / 4 % (planeCall d src dst p).width.toNat)
        ((a - (planeCall d src dst p).outputData) / 4 / (planeCall d src dst p).width.toNat) := by
  induction count generalizing plane mem with
  | zero => omega
  | succ k ih =>
    rw [planeLoop_succ_mem K d fi src dst hs hb]
    by_cases hpp : p = plane
    · subst hpp
      rw [planeLoop_mem_outside K d fi src dst hs hb]
      · rw [bridge_apply, if_pos ha]
      · intro q h1 h2
        exact hlater q (by omega) (by omega)
    · rw [ih (plane + 1) _ (by omega) (by omega) (fun q h1 h2 => hlater q h1 (by omega))
        (fun q b h1 h2 => hearlier q b (by omega) h2)]
      apply kernelResult_congr
      intro b hb2
      rw [bridge_apply, if_neg]
      intro hw
      exact hearlier plane b (le_refl _) (by omega) hw hb2

/-- When the row stride of destination plane p is exactly 4 * width bytes, and the buffers the
host hands out do not overlap (no other plane's output covers plane p's output, no plane's
output covers plane p's input), the sample at (x, y) of plane p of the returned frame is the
kernel's result for pixel (x, y), computed from the source plane as it was before the call. -/
theorem filmGrainGetFrame_tight_rows (K : Kernel) (host : Host) (n : Int) (d : FilmGrainData)
    (mem : Mem) (hs : (host.getFrameFilter n d.node).format.sampleType = stFloat)
    (hb : (host.getFrameFilter n d.node).format.bitsPerSample = 32) (p x y : Nat)
    (hp : p < (host.getFrameFilter n d.node).format.numPlanes.toNat)
    (hx : (x : Int) < getFrameWidth (host.getFrameFilter n d.node) p)
    (hy : (y : Int) < getFrameHeight (host.getFrameFilter n d.node) p)
    (htight : getStride (dstFrame host (host.getFrameFilter n d.node)) p =
      4 * getFrameWidth (host.getFrameFilter n d.node) p)
    (hWW : ∀ q a, q < (host.getFrameFilter n d.node).format.numPlanes.toNat → q ≠ p →
      inWrite (planeCall d (host.getFrameFilter n d.node)
        (dstFrame host (host.getFrameFilter n d.node)) q) a →
      ¬ inWrite (planeCall d (host.getFrameFilter n d.node)
        (dstFrame host (host.getFrameFilter n d.node)) p) a)
    (hWR : ∀ q a, q < (host.getFrameFilter n d.node).format.numPlanes.toNat →
      inWrite (planeCall d (host.getFrameFilter n d.node)
        (dstFrame host (host.getFrameFilter n d.node)) q) a →
      ¬ inRead (planeCall d (host.getFrameFilter n d.node)
        (dstFrame host (host.getFrameFilter n d.node)) p) a) :
    framePixel (filmGrainGetFrame K host n arAllFramesReady d mem).mem
        (dstFrame host (host.getFrameFilter n d.node)) p x y =
      kernelResult K mem (planeCall d (host.getFrameFilter n d.node)
        (dstFrame host (host.getFrameFilter n d.node)) p) x y := by
  have hne : arAllFramesReady ≠ arInitial := by decide
  generalize hsrc : host.getFrameFilter n d.node = src at *
  generalize hdst : dstFrame host src = dst at *
  obtain ⟨w, hw⟩ : ∃ w : Nat, getFrameWidth src p = (w : Int) :=
    ⟨(getFrameWidth src p).toNat, by omega⟩
  obtain ⟨h, hh⟩ : ∃ h : Nat, getFrameHeight src p = (h : Int) :=
    ⟨(getFrameHeight src p).toNat, by omega⟩
  have hxw : x < w := by omega
  have hyh : y < h := by omega
  have hidx : y * w + x < w * h := by
    calc y * w + x < y * w + w := by omega
      _ = w * (y + 1) := by ring
      _ ≤ w * h := Nat.mul_le_mul_left _ hyh
  have haddr : ((getReadPtr dst p : Int) + (y : Int) * getStride dst p + 4 * (x : Int)).toNat =
      getWritePtr dst p + 4 * (y * w + x) := by
    rw [htight, hw]
    simp only [getReadPtr, getWritePtr]
    have : ((dst.planes.getD p ⟨0, 0⟩).ptr : Int) + (y : Int) * (4 * (w : Int)) + 4 * (x : Int) =
        (((dst.planes.getD p ⟨0, 0⟩).ptr + 4 * (y * w + x) : Nat) : Int) := by
      push_cast
      ring
    rw [this, Int.toNat_ofNat]
  have hmem : (filmGrainGetFrame K host n arAllFramesReady d mem).mem =
      (planeLoop K d src.format src dst src.format.numPlanes.toNat 0 mem).2.1 := by
    simp only [filmGrainGetFrame, hne, if_false, if_true, getVideoFrameFormat, hsrc]
    rw [← hdst]
    rfl
  have hin : inWrite (planeCall d src dst p) (getWritePtr dst p + 4 * (y * w + x)) := by
    refine ⟨Nat.le_add_right _ _, ?_, ?_, ?_⟩
    · simp [planeCall]
    · simp only [planeCall]
      omega
    · simp only [planeCall, Nat.add_sub_cancel_left]
      rw [Nat.mul_div_cancel_left _ (by decide : 0 < 4), hw, hh]
      exact_mod_cast hidx
  unfold framePixel
  rw [haddr, hmem, planeLoop_mem_written K d src.format src dst hs hb _ 0 mem p _ (Nat.zero_le _)
    (by omega) hin (fun q h1 h2 => fun hq => hWW q _ (by omega) (by omega) hq hin)
    (fun q b _ h2 hq => hWR q b (by omega) hq)]
  have e1 : (getWritePtr dst p + 4 * (y * w + x) - (planeCall d src dst p).outputData) / 4 =
      y * w + x := by
    simp only [planeCall, Nat.add_sub_cancel_left]
    exact Nat.mul_div_cancel_left _ (by decide)
  have e2 : (planeCall d src dst p).width.toNat = w := by
    simp only [planeCall, hw, Int.toNat_ofNat]
  rw [e1, e2]
  have e3 : (y * w + x) % w = x := by
    rw [Nat.add_comm, Nat.add_mul_mod_self_right, Nat.mod_eq_of_lt hxw]
  have e4 : (y * w + x) / w = y := by
    rw [Nat.add_comm, Nat.add_mul_div_right _ _ (by omega : 0 < w), Nat.div_eq_of_lt hxw,
      Nat.zero_add]
  rw [e3, e4]

/-- The unpadded case at a concrete input: the 64x64 float frame with 256-byte rows on both
sides; pixel (5, 7) of the returned frame is the kernel's result for (5, 7). -/
theorem filmGrainGetFrame_tight_rows_64 (K : Kernel) (mem : Mem) :
    framePixel (filmGrainGetFrame K host64 0 arAllFramesReady (defaultData clip64) mem).mem
        ⟨8, grayS, 64, 64, [⟨65536, 256⟩]⟩ 0 5 7 =
      kernelResult K mem ⟨4096, 65536, 64, 64, 64, 800, f32_0_1, f32_0_0, f32_0_8, 114514⟩ 5 7 :=
  filmGrainGetFrame_tight_rows K host64 0 (defaultData clip64) mem (by decide) (by decide) 0 5 7
    (by decide) (by decide) (by decide) (by decide)
    (fun q a hq hne => by
      have : q = 0 := by
        have h1 : (host64.getFrameFilter 0 (defaultData clip64).node).format.numPlanes.toNat = 1 := by
          decide
        omega
      exact absurd this hne)
    (fun q a hq hw hr => by
      have h0 : (host64.getFrameFilter 0 (defaultData clip64).node).format.numPlanes.toNat = 1 := by
        decide
      have hq0 : q = 0 := by omega
      subst hq0
      have h1 : 65536 ≤ a := hw.1
      obtain ⟨j, hj, ha⟩ := hr
      have h2 : (j : Int) < 64 * 64 := hj
      have h3 : a = 4096 + 4 * j := ha
      omega)

end FGrain
